import Mathlib

/-!
Verification development for the mortgage-microservices pipeline.

The pipeline is embedded shallowly:
* the shared MySQL `loans` table becomes a list of `LoanRecord`s; the SQL
  statements used by the services (`SELECT ... WHERE id = ?`,
  `UPDATE loans SET status = ? WHERE id = ?`, `INSERT`) become list
  operations (`findLoan`, `updateLoanStatus`, append);
* the SQS channels become lists of message bodies; a successful
  `sendMessage` appends, a failed one leaves the list unchanged and the
  surrounding JS `catch` logic is modelled by the control flow;
* the random draws (`Math.random() < 0.9` in the verification service,
  `Math.random() < 0.7` in the eligibility lambda) become explicit boolean
  parameters, as do the success of each external call (enqueue, SNS
  publish, message delete);
* fields the pipeline never reads (addresses, timestamps) are omitted from
  the record and envelope structures.
-/

/-- Loan status values stored in the `status` column. -/
inductive Status where
  | pendingVerification
  | verified
  | verificationFailed
  | approved
  | rejected
deriving DecidableEq, Repr

/-- A row of the `loans` table, restricted to the columns the pipeline
reads or writes.  `loanAmount` is an `Option` because the eligibility
lambda guards against a missing (NULL) amount. -/
structure LoanRecord where
  id : Nat
  userId : Nat
  loanAmount : Option Int
  status : Status
deriving DecidableEq, Repr

/-- The record store: the `loans` table as a list of rows. -/
abbrev Db := List LoanRecord

/-- The SQL statement `UPDATE loans SET status = ? WHERE id = ?`
(used by both workers): every row whose id matches gets the new status,
unconditionally on its current status. -/
def updateLoanStatus (db : Db) (loanId : Nat) (newStatus : Status) : Db :=
  db.map (fun r => if r.id == loanId then { r with status := newStatus } else r)

/-- The SQL statement `SELECT ... FROM loans WHERE id = ?` followed by
taking the first row of the result set (`loans[0]` after a length check). -/
def findLoan (db : Db) (loanId : Nat) : Option LoanRecord :=
  (db.filter (fun r => r.id == loanId)).head?

/-- A parsed SQS message body, restricted to the fields the workers read
(`timestamp` is never read). -/
structure MsgBody where
  loanId : Nat
  userId : Nat
  action : String
deriving DecidableEq, Repr

/-- The CHECK_ELIGIBILITY envelope the verification worker enqueues for a
verified loan. -/
def checkEligibilityMsg (loanId userId : Nat) : MsgBody :=
  { loanId := loanId, userId := userId, action := "CHECK_ELIGIBILITY" }

/-- State touched by the verification worker: the shared record store and
the eligibility channel it enqueues into. -/
structure VerifState where
  db : Db
  eligibilityQueue : List MsgBody
deriving DecidableEq, Repr

/-- Result of `processMessage`: the updated state and the `success` flag
of the returned `{ id, success }` object. -/
structure ProcessResult where
  state : VerifState
  success : Bool
deriving DecidableEq, Repr

/-- The verification service's `processMessage` (doc-verification-service,
src/index.js).  `isVerified` is the outcome of the random draw inside
`verifyDocuments`; `sendOk` is whether `sqs.sendMessage` to the
eligibility queue succeeds.  Control flow follows the source: the status
UPDATE is unconditional and happens before the enqueue; a failed enqueue
is rethrown and caught by the outer catch, which returns success = false;
an unknown action returns success = false with no write and no enqueue. -/
def processMessage (st : VerifState) (body : MsgBody)
    (isVerified : Bool) (sendOk : Bool) : ProcessResult :=
  if body.action = "VERIFY_DOCUMENTS" then
    let newStatus := if isVerified then Status.verified else Status.verificationFailed
    let db' := updateLoanStatus st.db body.loanId newStatus
    if isVerified then
      if sendOk then
        { state := { db := db',
                     eligibilityQueue :=
                       st.eligibilityQueue ++ [checkEligibilityMsg body.loanId body.userId] },
          success := true }
      else
        { state := { db := db', eligibilityQueue := st.eligibilityQueue }, success := false }
    else
      { state := { db := db', eligibilityQueue := st.eligibilityQueue }, success := true }
  else
    { state := st, success := false }

/-- One message iteration of the verification service's `pollMessages`
loop: run `processMessage`, then call `deleteMessage` only when the result
reports success (`deleteOk` is whether that delete call itself succeeds; a
failed delete is caught and only logged).  Returns the new state and
whether the message was actually deleted from the channel. -/
def pollStep (st : VerifState) (body : MsgBody)
    (isVerified sendOk deleteOk : Bool) : VerifState × Bool :=
  let r := processMessage st body isVerified sendOk
  (r.state, r.success && deleteOk)

/-- The object returned by `calculateEligibility` on success. -/
structure EligResult where
  eligible : Bool
  reason : String
deriving DecidableEq, Repr

/-- The eligibility lambda's `calculateEligibility`.  `draw` is the
outcome of the random draw (the JS expression Math.random() < 0.7).  A
missing or non-positive amount throws (modelled by `Except.error`); the
JS falsiness check !loanAmount on the number 0 is subsumed by the
`a ≤ 0` test. -/
def calculateEligibility (loanAmount : Option Int) (draw : Bool) :
    Except String EligResult :=
  match loanAmount with
  | none => Except.error "Invalid loan amount"
  | some a =>
    if a ≤ 0 then Except.error "Invalid loan amount"
    else
      let isEligible := draw && decide (a < 1000000)
      let reason :=
        if isEligible then "Approved based on eligibility rules"
        else if 1000000 ≤ a then "Loan amount exceeds maximum threshold"
        else "Does not meet eligibility criteria"
      Except.ok { eligible := isEligible, reason := reason }

/-- Outcome of the eligibility lambda's handler for one SQS record:
the record store after the iteration, whether the record was pushed to
`processedRecords` (`processed = false` means it went to
`failedRecords`), the status written (if any), whether an SNS publish was
attempted, and the notification-related log line emitted (if any). -/
structure EligOutcome where
  db : Db
  processed : Bool
  newStatus : Option Status
  publishAttempted : Bool
  snsLog : Option String
deriving DecidableEq, Repr

/-- The per-record body of the eligibility lambda's handler loop
(eligibility-lambda/index.js).  `draw` is the random draw inside
`calculateEligibility`, `topicArn` is process.env.LOAN_APPROVED_TOPIC_ARN
(`none` when unset), `snsOk` is whether `sns.publish` succeeds.  Control
flow follows the source: the falsiness guard !loanId or !action throws;
an absent loan or a thrown eligibility error lands in `failedRecords`
with no status write; the status UPDATE is unconditional; the SNS publish
is attempted only when eligible and the topic ARN is set, and its failure
is caught and logged without failing the record. -/
def handlerRecord (db : Db) (body : MsgBody) (draw : Bool)
    (topicArn : Option String) (snsOk : Bool) : EligOutcome :=
  if body.loanId = 0 ∨ body.action = "" then
    { db := db, processed := false, newStatus := none,
      publishAttempted := false, snsLog := none }
  else if body.action = "CHECK_ELIGIBILITY" then
    match findLoan db body.loanId with
    | none =>
      { db := db, processed := false, newStatus := none,
        publishAttempted := false, snsLog := none }
    | some loan =>
      match calculateEligibility loan.loanAmount draw with
      | Except.error _ =>
        { db := db, processed := false, newStatus := none,
          publishAttempted := false, snsLog := none }
      | Except.ok er =>
        let newStatus := if er.eligible then Status.approved else Status.rejected
        let db' := updateLoanStatus db body.loanId newStatus
        if er.eligible && topicArn.isSome then
          if snsOk then
            { db := db', processed := true, newStatus := some newStatus,
              publishAttempted := true,
              snsLog := some "Published approval notification" }
          else
            { db := db', processed := true, newStatus := some newStatus,
              publishAttempted := true,
              snsLog := some "Failed to publish SNS notification" }
        else
          { db := db', processed := true, newStatus := some newStatus,
            publishAttempted := false, snsLog := none }
  else
    { db := db, processed := false, newStatus := none,
      publishAttempted := false, snsLog := none }

/-- The HTTP response of the loan service's POST /loans route, restricted
to the fields the claims mention. -/
structure CreateResponse where
  httpStatus : Nat
  loanId : Option Nat
  status : Option Status
deriving DecidableEq, Repr

/-- State and response after one POST /loans request. -/
structure ProducerResult where
  db : Db
  verificationQueue : List MsgBody
  response : CreateResponse
deriving DecidableEq, Repr

/-- MySQL AUTO_INCREMENT id for the inserted row (`result.insertId`). -/
def nextLoanId (db : Db) : Nat :=
  (db.map LoanRecord.id).foldr max 0 + 1

/-- The loan service's POST /loans route body (the stage producer), after
request validation: verify the user exists (404 otherwise), INSERT the
loan with status PENDING_VERIFICATION, then try to enqueue the
VERIFY_DOCUMENTS message; an enqueue failure (`enqueueOk = false`) is
caught and logged, and the route still responds 201 with the new loanId
and PENDING_VERIFICATION. -/
def createLoan (db : Db) (users : List Nat) (vq : List MsgBody)
    (userId : Nat) (loanAmount : Int) (enqueueOk : Bool) : ProducerResult :=
  if users.contains userId then
    let loanId := nextLoanId db
    let db' := db ++ [{ id := loanId, userId := userId,
                        loanAmount := some loanAmount,
                        status := Status.pendingVerification }]
    let vq' :=
      if enqueueOk then
        vq ++ [{ loanId := loanId, userId := userId, action := "VERIFY_DOCUMENTS" }]
      else vq
    { db := db', verificationQueue := vq',
      response := { httpStatus := 201, loanId := some loanId,
                    status := some Status.pendingVerification } }
  else
    { db := db, verificationQueue := vq,
      response := { httpStatus := 404, loanId := none, status := none } }

/-! ## Helper lemmas about the record-store operations -/

/-- Updating a loanId that matches no row leaves the store unchanged. -/
theorem updateLoanStatus_of_absent (db : Db) (i : Nat) (s : Status)
    (h : findLoan db i = none) : updateLoanStatus db i s = db := by
  induction db with
  | nil => rfl
  | cons r rest ih =>
    simp only [findLoan, List.filter] at h ih
    simp only [updateLoanStatus, List.map]
    cases hri : (r.id == i) with
    | true => simp [hri, List.head?] at h
    | false =>
      simp only [hri, cond_false] at h
      simp only [hri, Bool.false_eq_true, if_false]
      have := ih h
      simp only [updateLoanStatus] at this
      rw [this]

/-- Looking a loan up after the unconditional UPDATE returns the same row
with the new status. -/
theorem findLoan_updateLoanStatus (db : Db) (i : Nat) (s : Status) :
    findLoan (updateLoanStatus db i s) i
      = (findLoan db i).map (fun r => { r with status := s }) := by
  induction db with
  | nil => rfl
  | cons r rest ih =>
    simp only [updateLoanStatus, findLoan, List.map, List.filter] at ih ⊢
    cases hri : (r.id == i) with
    | true =>
      have hid : ({ r with status := s } : LoanRecord).id == i := hri
      simp [hri, hid, List.head?]
    | false =>
      simp only [hri, Bool.false_eq_true, if_false, cond_false]
      exact ih

/-! ## Claim theorems -/

/-- C1: the claim says every worker status write is a conditional
transition that no-ops when the current status differs from the expected
source state.  The code's UPDATE statements carry no status condition:
here the verification worker overwrites a terminal APPROVED record with
VERIFIED, and the eligibility worker overwrites a PENDING_VERIFICATION
record (not VERIFIED) with APPROVED. -/
theorem C1_unconditional_overwrite :
    (processMessage
        { db := [{ id := 1, userId := 7, loanAmount := some 500000,
                   status := Status.approved }], eligibilityQueue := [] }
        { loanId := 1, userId := 7, action := "VERIFY_DOCUMENTS" }
        true true).state.db
      = [{ id := 1, userId := 7, loanAmount := some 500000,
           status := Status.verified }]
    ∧ (handlerRecord
        [{ id := 2, userId := 7, loanAmount := some 500000,
           status := Status.pendingVerification }]
        { loanId := 2, userId := 7, action := "CHECK_ELIGIBILITY" }
        true (some "arn") true).db
      = [{ id := 2, userId := 7, loanAmount := some 500000,
           status := Status.approved }] :=
  ⟨rfl, rfl⟩

/-- C2: the claim says delivering the same VERIFY_DOCUMENTS message twice
yields exactly one status transition and at most one eligibility enqueue.
The code re-runs the whole step: with a passing draw both times it
enqueues two CHECK_ELIGIBILITY messages, and with a passing then a
failing draw it performs a second transition, overwriting VERIFIED with
VERIFICATION_FAILED. -/
theorem C2_double_delivery_not_idempotent :
    (processMessage
        (processMessage
          { db := [{ id := 1, userId := 7, loanAmount := some 500000,
                     status := Status.pendingVerification }], eligibilityQueue := [] }
          { loanId := 1, userId := 7, action := "VERIFY_DOCUMENTS" } true true).state
        { loanId := 1, userId := 7, action := "VERIFY_DOCUMENTS" }
        true true).state.eligibilityQueue.length = 2
    ∧ (processMessage
        (processMessage
          { db := [{ id := 1, userId := 7, loanAmount := some 500000,
                     status := Status.pendingVerification }], eligibilityQueue := [] }
          { loanId := 1, userId := 7, action := "VERIFY_DOCUMENTS" } true true).state
        { loanId := 1, userId := 7, action := "VERIFY_DOCUMENTS" }
        false true).state.db
      = [{ id := 1, userId := 7, loanAmount := some 500000,
           status := Status.verificationFailed }] :=
  ⟨rfl, rfl⟩

/-- C3: when the eligibility policy approves a loan and the SNS publish
fails, the APPROVED status still persists in the record store, the record
is still counted as processed (so the message is deleted), and the
failure is only logged. -/
theorem C3_sns_failure_nonfatal (db : Db) (body : MsgBody) (loan : LoanRecord)
    (er : EligResult) (draw : Bool) (arn : String)
    (hid : body.loanId ≠ 0) (hact : body.action = "CHECK_ELIGIBILITY")
    (hfind : findLoan db body.loanId = some loan)
    (helig : calculateEligibility loan.loanAmount draw = Except.ok er)
    (he : er.eligible = true) :
    (handlerRecord db body draw (some arn) false).db
        = updateLoanStatus db body.loanId Status.approved
    ∧ findLoan (handlerRecord db body draw (some arn) false).db body.loanId
        = some { loan with status := Status.approved }
    ∧ (handlerRecord db body draw (some arn) false).processed = true
    ∧ (handlerRecord db body draw (some arn) false).snsLog
        = some "Failed to publish SNS notification" := by
  have key : handlerRecord db body draw (some arn) false
      = { db := updateLoanStatus db body.loanId Status.approved,
          processed := true, newStatus := some Status.approved,
          publishAttempted := true,
          snsLog := some "Failed to publish SNS notification" } := by
    simp [handlerRecord, hact, hfind, helig, he, hid]
  refine ⟨by rw [key], ?_, by rw [key], by rw [key]⟩
  rw [key]
  show findLoan (updateLoanStatus db body.loanId Status.approved) body.loanId = _
  rw [findLoan_updateLoanStatus, hfind]
  rfl

/-- A concrete sample loan row, used to instantiate witness theorems. -/
def sampleLoan (st : Status) : LoanRecord :=
  { id := 1, userId := 7, loanAmount := some 500000, status := st }

/-- A concrete CHECK_ELIGIBILITY envelope for the sample loan. -/
def checkMsg1 : MsgBody :=
  { loanId := 1, userId := 7, action := "CHECK_ELIGIBILITY" }

/-- A concrete VERIFY_DOCUMENTS envelope for the sample loan. -/
def verifyMsg1 : MsgBody :=
  { loanId := 1, userId := 7, action := "VERIFY_DOCUMENTS" }

/-- C3 witness: a concrete VERIFIED loan of amount 500000, an approving
draw, a configured topic, and a failing publish. -/
theorem C3_witness :
    (handlerRecord [sampleLoan Status.verified] checkMsg1 true (some "arn") false).db
        = updateLoanStatus [sampleLoan Status.verified] checkMsg1.loanId Status.approved
    ∧ findLoan (handlerRecord [sampleLoan Status.verified] checkMsg1 true (some "arn") false).db
        checkMsg1.loanId
        = some { sampleLoan Status.verified with status := Status.approved }
    ∧ (handlerRecord [sampleLoan Status.verified] checkMsg1 true (some "arn") false).processed
        = true
    ∧ (handlerRecord [sampleLoan Status.verified] checkMsg1 true (some "arn") false).snsLog
        = some "Failed to publish SNS notification" :=
  C3_sns_failure_nonfatal [sampleLoan Status.verified] checkMsg1 (sampleLoan Status.verified)
    { eligible := true, reason := "Approved based on eligibility rules" } true "arn"
    (by decide) rfl rfl rfl rfl

/-- A concrete loan row with a chosen amount, used in witnesses. -/
def loanOfAmount (amt : Option Int) (st : Status) : LoanRecord :=
  { id := 1, userId := 7, loanAmount := amt, status := st }

/-- C4: any amount at or above 1,000,000 is rejected deterministically
(for every draw) with the threshold reason, and the handler then writes
REJECTED; below the ceiling the outcome tracks the random draw. -/
theorem C4_ceiling_rejects (a b : Int) (draw : Bool)
    (ha : 1000000 ≤ a) (hb0 : 0 < b) (hb : b < 1000000)
    (db : Db) (body : MsgBody) (loan : LoanRecord) (arn : Option String) (snsOk : Bool)
    (hid : body.loanId ≠ 0) (hact : body.action = "CHECK_ELIGIBILITY")
    (hfind : findLoan db body.loanId = some loan)
    (hamt : loan.loanAmount = some a) :
    calculateEligibility (some a) draw
        = Except.ok { eligible := false, reason := "Loan amount exceeds maximum threshold" }
    ∧ (handlerRecord db body draw arn snsOk).db
        = updateLoanStatus db body.loanId Status.rejected
    ∧ calculateEligibility (some b) true
        = Except.ok { eligible := true, reason := "Approved based on eligibility rules" }
    ∧ calculateEligibility (some b) false
        = Except.ok { eligible := false, reason := "Does not meet eligibility criteria" } := by
  have hnle : ¬ a ≤ 0 := by omega
  have hlt : decide (a < 1000000) = false := by simp; omega
  have h1 : calculateEligibility (some a) draw
      = Except.ok { eligible := false, reason := "Loan amount exceeds maximum threshold" } := by
    simp [calculateEligibility, hnle, hlt, ha]
  refine ⟨h1, ?_, ?_, ?_⟩
  · simp [handlerRecord, hact, hid, hfind, hamt, h1]
  · have : decide (b < 1000000) = true := by simp [hb]
    simp [calculateEligibility, this, hb0, hb]
  · have : ¬ 1000000 ≤ b := by omega
    simp [calculateEligibility, hb0, this]

/-- C4 witness: amounts 1,000,000 (boundary, rejected for the passing
draw) and 999,999 (policy-dependent), on a concrete VERIFIED loan. -/
theorem C4_witness :
    calculateEligibility (some 1000000) true
        = Except.ok { eligible := false, reason := "Loan amount exceeds maximum threshold" }
    ∧ (handlerRecord [loanOfAmount (some 1000000) Status.verified] checkMsg1 true none true).db
        = updateLoanStatus [loanOfAmount (some 1000000) Status.verified]
            checkMsg1.loanId Status.rejected
    ∧ calculateEligibility (some 999999) true
        = Except.ok { eligible := true, reason := "Approved based on eligibility rules" }
    ∧ calculateEligibility (some 999999) false
        = Except.ok { eligible := false, reason := "Does not meet eligibility criteria" } :=
  C4_ceiling_rejects 1000000 999999 true (by decide) (by decide) (by decide)
    [loanOfAmount (some 1000000) Status.verified] checkMsg1
    (loanOfAmount (some 1000000) Status.verified) none true
    (by decide) rfl rfl rfl

/-- C5: when verification passes but the eligibility enqueue fails, the
worker reports failure and the message is not deleted, whatever the
outcome of a delete call would have been, and nothing was durably
enqueued. -/
theorem C5_enqueue_failure_no_delete (st : VerifState) (body : MsgBody) (deleteOk : Bool)
    (hact : body.action = "VERIFY_DOCUMENTS") :
    (processMessage st body true false).success = false
    ∧ (pollStep st body true false deleteOk).2 = false
    ∧ (pollStep st body true false deleteOk).1.eligibilityQueue = st.eligibilityQueue := by
  simp [processMessage, pollStep, hact]

/-- C5 witness: a concrete PENDING_VERIFICATION loan, a passing draw and
a failing enqueue. -/
theorem C5_witness :
    (processMessage { db := [sampleLoan Status.pendingVerification], eligibilityQueue := [] }
        verifyMsg1 true false).success = false
    ∧ (pollStep { db := [sampleLoan Status.pendingVerification], eligibilityQueue := [] }
        verifyMsg1 true false true).2 = false
    ∧ (pollStep { db := [sampleLoan Status.pendingVerification], eligibilityQueue := [] }
        verifyMsg1 true false true).1.eligibilityQueue
        = ({ db := [sampleLoan Status.pendingVerification],
             eligibilityQueue := [] } : VerifState).eligibilityQueue :=
  C5_enqueue_failure_no_delete
    { db := [sampleLoan Status.pendingVerification], eligibilityQueue := [] }
    verifyMsg1 true rfl

/-- C6 counterexample: for a VERIFY_DOCUMENTS message whose loanId
matches no record (empty store), the worker still runs the step; with a
passing draw it enqueues a CHECK_ELIGIBILITY message and reports success
(so the message is deleted), contradicting the claim that no
eligibility-channel enqueue occurs. -/
theorem C6_counterexample :
    findLoan ([] : Db) verifyMsg1.loanId = none
    ∧ (processMessage { db := [], eligibilityQueue := [] } verifyMsg1 true true).state.eligibilityQueue
        = [checkEligibilityMsg 1 7]
    ∧ (processMessage { db := [], eligibilityQueue := [] } verifyMsg1 true true).success = true :=
  ⟨rfl, rfl, rfl⟩

/-- C6 amended: the worker performs no lookup; when the loanId matches no
record the status UPDATE touches no row (store unchanged), but a
CHECK_ELIGIBILITY message is still enqueued whenever the draw passes and
the enqueue succeeds, and the message is processed as a success (hence
deleted) unless the enqueue failed. -/
theorem C6_amended_no_lookup (st : VerifState) (body : MsgBody) (draw sendOk : Bool)
    (hact : body.action = "VERIFY_DOCUMENTS")
    (habsent : findLoan st.db body.loanId = none) :
    (processMessage st body draw sendOk).state.db = st.db
    ∧ (processMessage st body draw sendOk).state.eligibilityQueue
        = (if draw && sendOk then
             st.eligibilityQueue ++ [checkEligibilityMsg body.loanId body.userId]
           else st.eligibilityQueue)
    ∧ (processMessage st body draw sendOk).success = (!draw || sendOk) := by
  cases draw <;> cases sendOk <;>
    simp [processMessage, hact, updateLoanStatus_of_absent _ _ _ habsent]

/-- C6 amended witness: empty store, passing draw, successful enqueue. -/
theorem C6_amended_witness :
    (processMessage { db := [], eligibilityQueue := [] } verifyMsg1 true true).state.db
        = ({ db := [], eligibilityQueue := [] } : VerifState).db
    ∧ (processMessage { db := [], eligibilityQueue := [] } verifyMsg1 true true).state.eligibilityQueue
        = (if true && true then
             ({ db := [], eligibilityQueue := [] } : VerifState).eligibilityQueue
               ++ [checkEligibilityMsg verifyMsg1.loanId verifyMsg1.userId]
           else ({ db := [], eligibilityQueue := [] } : VerifState).eligibilityQueue)
    ∧ (processMessage { db := [], eligibilityQueue := [] } verifyMsg1 true true).success
        = (!true || true) :=
  C6_amended_no_lookup { db := [], eligibilityQueue := [] } verifyMsg1 true true rfl rfl

/-- A concrete message with an action neither worker recognises. -/
def unknownMsg1 : MsgBody :=
  { loanId := 1, userId := 7, action := "UNKNOWN_ACTION" }

/-- C7 counterexample: a message with an unrecognised action is returned
with success = false, so the poll loop does not delete it even when the
delete call would succeed; the broker will therefore redeliver it,
contradicting the claim that it is dropped and not redelivered. -/
theorem C7_counterexample :
    (pollStep { db := [sampleLoan Status.pendingVerification], eligibilityQueue := [] }
        unknownMsg1 true true true).2 = false :=
  rfl

/-- C7 amended: an unrecognised action causes no status write and no
enqueue, but the message is not deleted (the worker reports failure), so
the broker redelivers it after the visibility timeout rather than
dropping it permanently. -/
theorem C7_amended_unknown_action_kept (st : VerifState) (body : MsgBody)
    (draw sendOk deleteOk : Bool) (hact : body.action ≠ "VERIFY_DOCUMENTS") :
    processMessage st body draw sendOk = { state := st, success := false }
    ∧ (pollStep st body draw sendOk deleteOk).2 = false := by
  simp [processMessage, pollStep, hact]

/-- C7 amended witness: the concrete unknown-action message on a concrete
store. -/
theorem C7_amended_witness :
    processMessage { db := [sampleLoan Status.pendingVerification], eligibilityQueue := [] }
        unknownMsg1 true true
      = { state := { db := [sampleLoan Status.pendingVerification], eligibilityQueue := [] },
          success := false }
    ∧ (pollStep { db := [sampleLoan Status.pendingVerification], eligibilityQueue := [] }
        unknownMsg1 true true true).2 = false :=
  C7_amended_unknown_action_kept
    { db := [sampleLoan Status.pendingVerification], eligibilityQueue := [] }
    unknownMsg1 true true true (by decide)

/-- C8: a CHECK_ELIGIBILITY message whose loan has a missing or
non-positive amount is a business error for that record: it lands in
failedRecords (logged, not reprocessed), the store is unchanged and no
publish is attempted. -/
theorem C8_invalid_amount_dropped (db : Db) (body : MsgBody) (loan : LoanRecord)
    (draw : Bool) (arn : Option String) (snsOk : Bool)
    (hid : body.loanId ≠ 0) (hact : body.action = "CHECK_ELIGIBILITY")
    (hfind : findLoan db body.loanId = some loan)
    (hamt : loan.loanAmount = none ∨ ∃ a, loan.loanAmount = some a ∧ a ≤ 0) :
    handlerRecord db body draw arn snsOk
      = { db := db, processed := false, newStatus := none,
          publishAttempted := false, snsLog := none } := by
  have herr : calculateEligibility loan.loanAmount draw
      = Except.error "Invalid loan amount" := by
    rcases hamt with h | ⟨a, h, ha⟩
    · rw [h]; rfl
    · rw [h]; simp [calculateEligibility, ha]
  simp [handlerRecord, hact, hid, hfind, herr]

/-- C8 witness: a concrete VERIFIED loan whose amount column is NULL. -/
theorem C8_witness :
    handlerRecord [loanOfAmount none Status.verified] checkMsg1 true (some "arn") true
      = { db := [loanOfAmount none Status.verified], processed := false, newStatus := none,
          publishAttempted := false, snsLog := none } :=
  C8_invalid_amount_dropped [loanOfAmount none Status.verified] checkMsg1
    (loanOfAmount none Status.verified) true (some "arn") true
    (by decide) rfl rfl (Or.inl rfl)

/-- C9: after validation and a successful user check, the loan service
inserts the record with PENDING_VERIFICATION, attempts the enqueue, and
responds 201 with the new loanId and PENDING_VERIFICATION even when the
enqueue fails; the failed enqueue leaves the verification channel
unchanged. -/
theorem C9_enqueue_failure_still_created (db : Db) (users : List Nat) (vq : List MsgBody)
    (userId : Nat) (amount : Int) (enqueueOk : Bool)
    (hu : users.contains userId = true) :
    (createLoan db users vq userId amount enqueueOk).response
        = { httpStatus := 201, loanId := some (nextLoanId db),
            status := some Status.pendingVerification }
    ∧ (createLoan db users vq userId amount enqueueOk).db
        = db ++ [⟨nextLoanId db, userId, some amount, Status.pendingVerification⟩]
    ∧ (createLoan db users vq userId amount false).verificationQueue = vq := by
  have hm : userId ∈ users := by simpa using hu
  simp [createLoan, hm]

/-- C9 witness: a concrete request for existing user 7 with amount
250000 and a failing enqueue. -/
theorem C9_witness :
    (createLoan [] [7] [] 7 250000 false).response
        = { httpStatus := 201, loanId := some (nextLoanId []),
            status := some Status.pendingVerification }
    ∧ (createLoan [] [7] [] 7 250000 false).db
        = [] ++ [⟨nextLoanId [], 7, some 250000, Status.pendingVerification⟩]
    ∧ (createLoan [] [7] [] 7 250000 false).verificationQueue = [] :=
  C9_enqueue_failure_still_created [] [7] [] 7 250000 false (by decide)

/-- C10: with LOAN_APPROVED_TOPIC_ARN unset, an approved loan is still
written as APPROVED and counted as processed, but no publish is attempted
and no notification-related log line is emitted. -/
theorem C10_no_topic_no_publish (db : Db) (body : MsgBody) (loan : LoanRecord)
    (er : EligResult) (draw : Bool) (snsOk : Bool)
    (hid : body.loanId ≠ 0) (hact : body.action = "CHECK_ELIGIBILITY")
    (hfind : findLoan db body.loanId = some loan)
    (helig : calculateEligibility loan.loanAmount draw = Except.ok er)
    (he : er.eligible = true) :
    (handlerRecord db body draw none snsOk).db
        = updateLoanStatus db body.loanId Status.approved
    ∧ (handlerRecord db body draw none snsOk).processed = true
    ∧ (handlerRecord db body draw none snsOk).publishAttempted = false
    ∧ (handlerRecord db body draw none snsOk).snsLog = none := by
  simp [handlerRecord, hact, hid, hfind, helig, he]

/-- C10 witness: the concrete VERIFIED sample loan, an approving draw and
no topic configured. -/
theorem C10_witness :
    (handlerRecord [sampleLoan Status.verified] checkMsg1 true none true).db
        = updateLoanStatus [sampleLoan Status.verified] checkMsg1.loanId Status.approved
    ∧ (handlerRecord [sampleLoan Status.verified] checkMsg1 true none true).processed = true
    ∧ (handlerRecord [sampleLoan Status.verified] checkMsg1 true none true).publishAttempted
        = false
    ∧ (handlerRecord [sampleLoan Status.verified] checkMsg1 true none true).snsLog = none :=
  C10_no_topic_no_publish [sampleLoan Status.verified] checkMsg1 (sampleLoan Status.verified)
    { eligible := true, reason := "Approved based on eligibility rules" } true true
    (by decide) rfl rfl rfl rfl
